import Mathlib

/-!
Shallow embedding of the approval-workflow core of the report-approval
web application (service layer `services.py`, async task layer `tasks.py`).

Python objects are modelled as Lean structures; the SQLAlchemy session /
commit discipline is modelled by explicit `DB` states: a function returns
the committed database states it produces.  Machine-level concerns
(timestamps, uuids, auto-increment ids) are passed in explicitly.
-/

namespace Dash

/-- A Python value as produced by `json.loads`: null, bool, int, string,
list or dict (string-keyed).  Floats do not occur in any value the
workflow stores, so they are omitted. -/
inductive PyVal where
  | vnull
  | vbool (b : Bool)
  | vint (n : Int)
  | vstr (s : String)
  | vlist (xs : List PyVal)
  | vdict (kvs : List (String × PyVal))
deriving Repr

/-- The content of a `TEXT` column holding serialized JSON, as the code
observes it through `json.loads`: either a string that fails to parse
(`malformed`) or one that parses to a value (`wellFormed v`).
`json.dumps` always yields a `wellFormed` blob that reloads to the same
value. -/
inductive JsonText where
  | malformed
  | wellFormed (v : PyVal)
deriving Repr

/-- `models.User`: the columns the service layer reads. -/
structure User where
  full_name : String
  email : String
  role : String
  status : String
deriving Repr, DecidableEq

/-- `models.Report`: the columns the service layer reads or writes.
`updated_at` is a timestamp modelled as a `Nat` tick;
`approvals_json` is `None` or a serialized-JSON string. -/
structure Report where
  id : String
  type : String
  status : String
  document_title : Option String
  document_reference : Option String
  project_reference : Option String
  client_name : Option String
  revision : String
  prepared_by : Option String
  user_email : String
  version : String
  updated_at : Nat
  approvals_json : Option JsonText
  approval_notification_sent : Bool
deriving Repr

/-- The submitted field set handed to `ReportService.create_report` (a
Python dict read only through `data.get(...)`; the keys the code reads). -/
structure ReportData where
  type : Option String
  document_title : Option String
  document_reference : Option String
  project_reference : Option String
  client_name : Option String
  revision : Option String
  prepared_by : Option String
  date : Option String
  purpose : Option String
  scope : Option String
deriving Repr, DecidableEq

/-- `models.SATReport`: companion record for SAT reports; `data_json`
holds `json.dumps(data)`, modelled as the submitted field set itself. -/
structure SATReport where
  report_id : String
  data_json : ReportData
  date : Option String
  purpose : Option String
  scope : Option String
deriving Repr, DecidableEq

/-- `models.Notification`: the columns the service layer reads or writes.
`id` is the auto-assigned primary key; `read_at` a nullable timestamp. -/
structure Notification where
  id : Nat
  user_email : String
  title : String
  message : String
  type : String
  read : Bool
  read_at : Option Nat
deriving Repr, DecidableEq

/-- The committed database state: the tables the workflow touches plus
the auto-increment counter for notification primary keys. -/
structure DB where
  users : List User
  reports : List Report
  sat_reports : List SATReport
  notifications : List Notification
  nextNotifId : Nat
deriving Repr

/-- Environment of external non-determinism: which recipient's
`Notification` insert raises (`db.session.add`/`commit` failure for that
row), and the `ENABLE_EMAIL_NOTIFICATIONS` feature flag.
`send_email_notification` lives in `utils` (an external collaborator of
the excerpt) and is modelled as always succeeding. -/
structure Env where
  notifFails : String → Bool
  emailEnabled : Bool

/-- Python `dict.get` on a parsed JSON object. -/
def dictGet (kvs : List (String × PyVal)) (k : String) : Option PyVal :=
  (kvs.find? (fun kv => kv.1 == k)).map (fun kv => kv.2)

/-- Python `x == stage` where `stage` is an `int` and `x` came out of a
parsed JSON dict (`None` when the key is absent): ints compare by value,
bools compare as 0/1, every other shape (and `None`) is unequal. -/
def pyEqInt (v : Option PyVal) (n : Int) : Bool :=
  match v with
  | some (.vint m) => m == n
  | some (.vbool b) => (if b then (1 : Int) else 0) == n
  | _ => false

/-- `ReportService._is_at_stage` (services.py 212-222): false when
`approvals_json` is falsy; `json.loads` failure or any exception (e.g.
`.get` on a non-dict) is caught and yields false; otherwise compares
`approvals.get('stage')` with the stage. -/
def is_at_stage (aj : Option JsonText) (stage : Int) : Bool :=
  match aj with
  | none => false
  | some .malformed => false
  | some (.wellFormed v) =>
    match v with
    | .vdict kvs => pyEqInt (dictGet kvs "stage") stage
    | _ => false

/-- `ReportService.get_pending_approvals` (services.py 192-210):
technical-manager synonyms `TM`/`Technical Manager` count PENDING
reports at stage 1, project-manager synonyms `PM`/`Project Manager`
count stage 2, every other role string yields 0. -/
def get_pending_approvals (user_role : String) (reports : List Report) : Nat :=
  if user_role == "TM" || user_role == "Technical Manager" then
    (reports.filter (fun r => r.status == "PENDING")).countP
      (fun r => is_at_stage r.approvals_json 1)
  else if user_role == "PM" || user_role == "Project Manager" then
    (reports.filter (fun r => r.status == "PENDING")).countP
      (fun r => is_at_stage r.approvals_json 2)
  else 0

/-- The role buckets returned by `UserService.get_users_by_role`
(services.py 22-53); each entry is `(full_name, email)`. -/
structure UsersByRole where
  admin : List (String × String)
  engineer : List (String × String)
  tm : List (String × String)
  pm : List (String × String)
deriving Repr, DecidableEq

/-- The loop body of `get_users_by_role` (services.py 34-48): route one
Active user into its bucket by the role-synonym tables. -/
def classifyUser (acc : UsersByRole) (u : User) : UsersByRole :=
  if u.role == "Admin" then
    { acc with admin := acc.admin ++ [(u.full_name, u.email)] }
  else if u.role == "Engineer" then
    { acc with engineer := acc.engineer ++ [(u.full_name, u.email)] }
  else if ["TM", "Technical Manager", "Tech Manager", "Automation Manager"].contains u.role then
    { acc with tm := acc.tm ++ [(u.full_name, u.email)] }
  else if ["PM", "Project Manager", "Project_Manager"].contains u.role then
    { acc with pm := acc.pm ++ [(u.full_name, u.email)] }
  else acc

/-- `UserService.get_users_by_role` (services.py 22-53): groups Active
users into the four frontend buckets; the TM bucket admits the synonyms
`TM`, `Technical Manager`, `Tech Manager`, `Automation Manager`, the PM
bucket `PM`, `Project Manager`, `Project_Manager`. -/
def get_users_by_role (users : List User) : UsersByRole :=
  (users.filter (fun u => u.status == "Active")).foldl classifyUser ⟨[], [], [], []⟩

/-- The contribution of one user to the TM bucket, following the
if-chain order of `classifyUser`: not Admin, not Engineer, and in the
technical-manager synonym table. -/
def tmBucket (u : User) : Option (String × String) :=
  if !(u.role == "Admin") && !(u.role == "Engineer")
      && ["TM", "Technical Manager", "Tech Manager", "Automation Manager"].contains u.role
  then some (u.full_name, u.email) else none

/-- Primary-key lookup `Report.query.get(report_id)`. -/
def DB.getReport (db : DB) (rid : String) : Option Report :=
  db.reports.find? (fun r => r.id == rid)

/-- Replace the row with the given primary key (the ORM mutates the
fetched object in place; the commit publishes it). -/
def replaceReportRow (rid : String) (r : Report) : List Report → List Report
  | [] => []
  | x :: xs => if x.id == rid then r :: xs else x :: replaceReportRow rid r xs

/-- Commit of a session in which the report `r` was mutated. -/
def DB.putReport (db : DB) (r : Report) : DB :=
  { db with reports := replaceReportRow r.id r db.reports }

/-- `NotificationService.create_notification` (services.py 228-246):
constructs the row, adds and commits it; on failure rolls back and
re-raises (modelled as `none`, leaving the committed state unchanged). -/
def create_notification (env : Env) (db : DB) (user_email title message notification_type : String) :
    Option (Notification × DB) :=
  if env.notifFails user_email then none
  else
    let n : Notification :=
      { id := db.nextNotifId, user_email := user_email, title := title,
        message := message, type := notification_type, read := false, read_at := none }
    some (n, { db with notifications := db.notifications ++ [n],
                       nextNotifId := db.nextNotifId + 1 })

/-- The per-recipient loop of `create_approval_notification`: one
notification per manager, each committed by `create_notification`; an
exception from a recipient propagates out of the loop (`.error` carries
the committed state at that point, earlier rows already durable). -/
def notifyTMs (env : Env) (message : String) (db : DB) : List User → Except DB DB
  | [] => .ok db
  | tm :: rest =>
    match create_notification env db tm.email "New Report for Approval" message "approval" with
    | none => .error db
    | some (_, db') => notifyTMs env message db' rest

/-- `NotificationService.create_approval_notification` (services.py
248-278): resolves Active users with role `TM` or `Technical Manager`,
creates one notification per user, then (when the email flag is on)
sends one email per user; any exception is caught and the function
returns `false`.  Result: (returned bool, committed DB, emails sent). -/
def create_approval_notification (env : Env) (db : DB) (report : Report) :
    Bool × DB × List String :=
  let tms := db.users.filter
    (fun u => (u.role == "TM" || u.role == "Technical Manager") && u.status == "Active")
  let message := "Report \"" ++ (report.document_title.getD "None") ++ "\" requires your approval"
  match notifyTMs env message db tms with
  | .error db' => (false, db', [])
  | .ok db' =>
    let emails := if env.emailEnabled then tms.map (fun u => u.email) else []
    (true, db', emails)

/-- The fixed two-stage approval template written on DRAFT→PENDING
(services.py 169-176), as the parsed value of `json.dumps(approvals)`. -/
def approvalsTemplate : PyVal :=
  .vdict [("stage", .vint 1),
          ("approvers", .vlist
            [.vdict [("stage", .vint 1), ("title", .vstr "Technical Manager"),
                     ("status", .vstr "pending")],
             .vdict [("stage", .vint 2), ("title", .vstr "Project Manager"),
                     ("status", .vstr "pending")]])]

/-- Outcome of a successful `update_report_status` call: the state after
the first commit, the committed state the dispatcher was invoked on (if
it was), the dispatcher's boolean result, the final committed state and
the returned value. -/
structure UpdateOutcome where
  firstCommit : DB
  dispatchInput : Option DB
  dispatchResult : Option Bool
  finalDb : DB
  returned : Bool
deriving Repr

/-- The row mutation of `update_report_status` up to the first commit
(services.py 162-176): assign the new status, stamp `updated_at`, and on
DRAFT→PENDING overwrite `approvals_json` with the fixed two-stage
template. -/
def statusRow (report : Report) (status : String) (now : Nat) : Report :=
  let old_status := report.status
  let r1 := { report with status := status, updated_at := now }
  if status == "PENDING" && old_status == "DRAFT" then
    { r1 with approvals_json := some (.wellFormed approvalsTemplate) }
  else r1

/-- `ReportService.update_report_status` (services.py 154-190): loads
the report (`none` models the `NotFound` raise), mutates the row as in
`statusRow`, commits; then, if the new status is PENDING and the
approval notification was not yet sent, invokes the dispatcher, sets the
flag and commits again; returns `True`. -/
def update_report_status (env : Env) (db : DB) (report_id status : String) (now : Nat) :
    Option UpdateOutcome :=
  match db.getReport report_id with
  | none => none
  | some report =>
    let r2 := statusRow report status now
    let db1 := db.putReport r2
    if status == "PENDING" && !report.approval_notification_sent then
      let res := create_approval_notification env db1 r2
      let r3 := { r2 with approval_notification_sent := true }
      let db3 := (res.2.1).putReport r3
      some ⟨db1, some db1, some res.1, db3, true⟩
    else
      some ⟨db1, none, none, db1, true⟩

/-- `ReportService.create_report` (services.py 94-131): builds a DRAFT
report from `data.get(...)` reads (defaults: type `SAT`, revision `R0`),
adds a companion `SATReport` when the type is `SAT`, commits both, and
returns the report.  The fresh uuid is passed in as `report_id`. -/
def create_report (data : ReportData) (user_email : String) (report_id : String) (db : DB) :
    Report × DB :=
  let report : Report :=
    { id := report_id, type := data.type.getD "SAT", status := "DRAFT",
      document_title := data.document_title,
      document_reference := data.document_reference,
      project_reference := data.project_reference,
      client_name := data.client_name,
      revision := data.revision.getD "R0",
      prepared_by := data.prepared_by,
      user_email := user_email, version := "R0",
      updated_at := 0, approvals_json := none,
      approval_notification_sent := false }
  let db' :=
    if report.type == "SAT" then
      { db with sat_reports := db.sat_reports ++
          [{ report_id := report_id, data_json := data,
             date := data.date, purpose := data.purpose, scope := data.scope }] }
    else db
  (report, { db' with reports := db'.reports ++ [report] })

/-- `NotificationService.mark_as_read` (services.py 292-310): looks up
the first notification matching both the id and the requesting email;
when found, sets `read` and stamps `read_at`, commits and returns
`True`; otherwise returns `False` with the store untouched. -/
def replaceNotifRow (p : Notification → Bool) (n : Notification) :
    List Notification → List Notification
  | [] => []
  | x :: xs => if p x then n :: xs else x :: replaceNotifRow p n xs

def mark_as_read (db : DB) (notification_id : Nat) (user_email : String) (now : Nat) :
    Bool × DB :=
  let p := fun (n : Notification) => n.id == notification_id && n.user_email == user_email
  match db.notifications.find? p with
  | some n =>
    (true, { db with notifications :=
      replaceNotifRow p { n with read := true, read_at := some now } db.notifications })
  | none => (false, db)

/-- Terminal result of the bulk-notification job (tasks.py 170-222),
success shape. -/
structure BulkResult where
  sent : Nat
  failed : Nat
  total : Nat
deriving Repr, DecidableEq

/-- The per-recipient loop of `bulk_notification_async`: each recipient's
`Notification` construction/`add` is tried independently; a failure is
tallied in `failed`, a success stages the row in the session and tallies
`sent`.  Returns (staged rows, sent, failed, next id). -/
def bulkLoop (env : Env) (title message notification_type : String) :
    List String → List Notification → Nat → Nat → Nat →
    List Notification × Nat × Nat × Nat
  | [], session, sent, failed, nid => (session, sent, failed, nid)
  | email :: rest, session, sent, failed, nid =>
    if env.notifFails email then
      bulkLoop env title message notification_type rest session sent (failed + 1) nid
    else
      let n : Notification :=
        { id := nid, user_email := email, title := title, message := message,
          type := notification_type, read := false, read_at := none }
      bulkLoop env title message notification_type rest (session ++ [n]) (sent + 1) failed (nid + 1)

/-- `bulk_notification_async` (tasks.py 170-222): iterates the recipient
list creating one notification per recipient inside one session, tallying
per-recipient failures without aborting, and commits once at the end;
the terminal result reports sent/failed/total. -/
def bulk_notification_async (env : Env) (db : DB) (user_emails : List String)
    (title message notification_type : String) : BulkResult × DB :=
  let res := bulkLoop env title message notification_type user_emails [] 0 0 db.nextNotifId
  ({ sent := res.2.1, failed := res.2.2.1, total := user_emails.length },
   { db with notifications := db.notifications ++ res.1, nextNotifId := res.2.2.2 })

/-! ### Concrete demonstration values -/

/-- Environment where no notification insert fails and emails are off. -/
def noFailEnv : Env := ⟨fun _ => false, false⟩

/-- Environment where the insert for recipient `b@x` fails. -/
def bFailEnv : Env := ⟨fun e => e == "b@x", false⟩

/-- Environment where the insert for recipient `tm@x` fails. -/
def tmFailEnv : Env := ⟨fun e => e == "tm@x", false⟩

/-- A freshly created DRAFT report. -/
def draftDemo : Report :=
  { id := "r1", type := "SAT", status := "DRAFT", document_title := some "Doc T",
    document_reference := none, project_reference := none, client_name := none,
    revision := "R0", prepared_by := none, user_email := "eng@x", version := "R0",
    updated_at := 0, approvals_json := none, approval_notification_sent := false }

/-- A PENDING report sitting at approval stage 1. -/
def pendingStage1Report : Report :=
  { draftDemo with
    status := "PENDING",
    approvals_json := some (.wellFormed approvalsTemplate) }

/-- A PENDING report whose serialized approval state does not parse. -/
def malformedReport : Report :=
  { draftDemo with
    status := "PENDING",
    approvals_json := some .malformed }

/-- An Active user whose stored role string is `Automation Manager`. -/
def amDemoUser : User :=
  { full_name := "Ada Manager", email := "am@x", role := "Automation Manager",
    status := "Active" }

/-- An Active user whose stored role string is `TM`. -/
def tmDemoUser : User :=
  { full_name := "Tess Manager", email := "tm@x", role := "TM", status := "Active" }

/-- Store holding only the Automation Manager user. -/
def amOnlyDb : DB := ⟨[amDemoUser], [], [], [], 1⟩

/-- Store holding the TM user and the draft report. -/
def tmDraftDb : DB := ⟨[tmDemoUser], [draftDemo], [], [], 1⟩

/-- Store holding no users and the draft report. -/
def draftOnlyDb : DB := ⟨[], [draftDemo], [], [], 1⟩

/-- A demonstration notification row. -/
def demoNotif : Notification :=
  ⟨7, "me@x", "Ping", "hello", "info", false, none⟩

/-- Store holding only `demoNotif`. -/
def notifDb : DB := ⟨[], [], [], [demoNotif], 8⟩

/-- The submitted field set with every field absent. -/
def emptyData : ReportData :=
  ⟨none, none, none, none, none, none, none, none, none, none⟩

/-- An empty store. -/
def emptyDb : DB := ⟨[], [], [], [], 1⟩

/-! ### Helper lemmas -/

/-- A found report carries the looked-up primary key. -/
lemma getReport_id {db : DB} {rid : String} {r : Report}
    (hr : db.getReport rid = some r) : r.id = rid := by
  have h := List.find?_some hr
  exact eq_of_beq h

/-- Replacing the row found under `rid` makes the replacement the row
found under `rid`. -/
lemma find?_replaceReportRow (rid : String) (r' : Report) (hid : r'.id = rid) :
    ∀ (l : List Report) (r : Report),
      l.find? (fun x => x.id == rid) = some r →
      (replaceReportRow r'.id r' l).find? (fun x => x.id == rid) = some r'
  | [], _, h => by simp [List.find?] at h
  | x :: xs, r, h => by
    by_cases hx : (x.id == rid) = true
    · have hrepl : replaceReportRow r'.id r' (x :: xs) = r' :: xs := by
        rw [hid]; simp [replaceReportRow, hx]
      rw [hrepl]
      exact List.find?_cons_of_pos xs (by simp [hid])
    · have hrepl : replaceReportRow r'.id r' (x :: xs) = x :: replaceReportRow r'.id r' xs := by
        rw [hid]; simp [replaceReportRow, hx]
      have hx' : (x.id == rid) = false := by simpa using hx
      have hh : List.find? (fun y => y.id == rid) xs = some r := by
        simpa [List.find?_cons, hx'] using h
      rw [hrepl]
      simpa [List.find?_cons, hx'] using find?_replaceReportRow rid r' hid xs r hh

/-- Committing a mutated row with the same key preserves findability. -/
lemma getReport_putReport (db : DB) (rid : String) (r r' : Report)
    (hr : db.getReport rid = some r) (hid : r'.id = rid) :
    (db.putReport r').getReport rid = some r' := by
  unfold DB.getReport DB.putReport at *
  exact find?_replaceReportRow rid r' hid db.reports r hr

/-- `getReport` only reads the reports table. -/
lemma getReport_congr (d1 d2 : DB) (rid : String) (h : d1.reports = d2.reports) :
    d1.getReport rid = d2.getReport rid := by
  unfold DB.getReport
  rw [h]

/-- `create_notification` never touches the reports table. -/
lemma create_notification_reports (env : Env) (db db' : DB) (e t m ty : String)
    (n : Notification) (h : create_notification env db e t m ty = some (n, db')) :
    db'.reports = db.reports := by
  unfold create_notification at h
  by_cases hf : env.notifFails e
  · simp [hf] at h
  · simp [hf] at h
    rw [← h.2]

/-- The notification loop never touches the reports table. -/
lemma notifyTMs_reports (env : Env) (msg : String) :
    ∀ (tms : List User) (db : DB),
      (match notifyTMs env msg db tms with
       | .ok d => d
       | .error d => d).reports = db.reports
  | [], db => by simp [notifyTMs]
  | tm :: rest, db => by
    unfold notifyTMs
    cases hc : create_notification env db tm.email "New Report for Approval" msg "approval" with
    | none => simp
    | some p =>
      simp only
      have h1 := notifyTMs_reports env msg rest p.2
      have h2 : p.2.reports = db.reports :=
        create_notification_reports env db p.2 tm.email "New Report for Approval" msg "approval"
          p.1 (by rw [hc])
      rw [← h2]
      exact h1

/-- The dispatcher never touches the reports table. -/
lemma create_approval_notification_reports (env : Env) (db : DB) (rep : Report) :
    ((create_approval_notification env db rep).2.1).reports = db.reports := by
  have h := notifyTMs_reports env
    ("Report \"" ++ (rep.document_title.getD "None") ++ "\" requires your approval")
    (db.users.filter
      (fun u => (u.role == "TM" || u.role == "Technical Manager") && u.status == "Active"))
    db
  cases hn : notifyTMs env
      ("Report \"" ++ (rep.document_title.getD "None") ++ "\" requires your approval") db
      (db.users.filter
        (fun u => (u.role == "TM" || u.role == "Technical Manager") && u.status == "Active")) with
  | error d =>
    rw [hn] at h
    simp only [create_approval_notification, hn]
    simpa using h
  | ok d =>
    rw [hn] at h
    simp only [create_approval_notification, hn]
    simpa using h

/-- The mutated row keeps the report's primary key. -/
lemma statusRow_id (r : Report) (s : String) (n : Nat) : (statusRow r s n).id = r.id := by
  unfold statusRow
  by_cases h : (s == "PENDING" && r.status == "DRAFT") = true <;> simp [h]

/-- The mutated row carries the new status. -/
lemma statusRow_status (r : Report) (s : String) (n : Nat) : (statusRow r s n).status = s := by
  unfold statusRow
  by_cases h : (s == "PENDING" && r.status == "DRAFT") = true <;> simp [h]

/-- The mutated row carries the fresh timestamp. -/
lemma statusRow_updated_at (r : Report) (s : String) (n : Nat) :
    (statusRow r s n).updated_at = n := by
  unfold statusRow
  by_cases h : (s == "PENDING" && r.status == "DRAFT") = true <;> simp [h]

/-- The mutation leaves the notification flag alone. -/
lemma statusRow_flag (r : Report) (s : String) (n : Nat) :
    (statusRow r s n).approval_notification_sent = r.approval_notification_sent := by
  unfold statusRow
  by_cases h : (s == "PENDING" && r.status == "DRAFT") = true <;> simp [h]

/-- `approvals_json` after the mutation: the fixed template exactly on
DRAFT→PENDING, otherwise untouched. -/
lemma statusRow_aj (r : Report) (s : String) (n : Nat) :
    (statusRow r s n).approvals_json =
      if s == "PENDING" && r.status == "DRAFT" then
        some (.wellFormed approvalsTemplate) else r.approvals_json := by
  unfold statusRow
  by_cases h : (s == "PENDING" && r.status == "DRAFT") = true <;> simp [h]

/-- Full characterization of a successful `update_report_status` call on
a report `r` found under `rid`: the call returns `True`; the first commit
already stores the mutated row; the dispatcher is invoked on the first
committed state exactly when the new status is PENDING and the flag is
unset; and the final committed state stores the same row with the flag
ORed with entry-into-PENDING. -/
lemma update_report_status_spec (env : Env) (db : DB) (rid status : String) (now : Nat)
    (r : Report) (hr : db.getReport rid = some r) :
    ∃ o : UpdateOutcome,
      update_report_status env db rid status now = some o ∧
      o.returned = true ∧
      o.firstCommit.getReport rid = some (statusRow r status now) ∧
      o.dispatchInput = (if status == "PENDING" && !r.approval_notification_sent then
                           some o.firstCommit else none) ∧
      o.dispatchResult.isSome = (status == "PENDING" && !r.approval_notification_sent) ∧
      o.finalDb.getReport rid = some
        { statusRow r status now with
          approval_notification_sent :=
            r.approval_notification_sent || status == "PENDING" } := by
  have hid : r.id = rid := getReport_id hr
  have hid2 : (statusRow r status now).id = rid := by rw [statusRow_id]; exact hid
  have hfirst : (db.putReport (statusRow r status now)).getReport rid
      = some (statusRow r status now) :=
    getReport_putReport db rid r (statusRow r status now) hr hid2
  unfold update_report_status
  rw [hr]
  by_cases hd : (status == "PENDING" && !r.approval_notification_sent) = true
  · have hflag : r.approval_notification_sent = false := by
      have h2 := (Bool.and_eq_true _ _).mp hd
      simpa using h2.2
    have hpend : (status == "PENDING") = true := ((Bool.and_eq_true _ _).mp hd).1
    simp only [hd, if_true]
    refine ⟨_, rfl, rfl, hfirst, by simp [hd], by simp, ?_⟩
    have hA : ((create_approval_notification env (db.putReport (statusRow r status now))
        (statusRow r status now)).2.1).getReport rid = some (statusRow r status now) := by
      rw [getReport_congr _ (db.putReport (statusRow r status now)) rid
        (create_approval_notification_reports env _ _)]
      exact hfirst
    have hB := getReport_putReport _ rid (statusRow r status now)
      { statusRow r status now with approval_notification_sent := true } hA hid2
    rw [hB, hflag, hpend]
    simp
  · simp only [hd, if_false]
    have hor : (r.approval_notification_sent || (status == "PENDING"))
        = r.approval_notification_sent := by
      by_cases hp : (status == "PENDING") = true
      · have hb : r.approval_notification_sent = true := by
          by_contra hbf
          apply hd
          rw [hp]
          simp only [Bool.not_eq_true] at hbf
          simp [hbf]
        simp [hb]
      · have hp' : (status == "PENDING") = false := by simpa using hp
        simp [hp']
    refine ⟨_, rfl, rfl, hfirst, by simp [hd], by simp [hd], ?_⟩
    rw [hor, ← statusRow_flag r status now]
    exact hfirst

/-! ### Claim C3 -/

/-- Claim C3: for every existing report whose current status is DRAFT, a
successful `update_report_status` call to PENDING overwrites the
report's serialized approval state with exactly the fixed two-stage
template — current stage 1, then the ordered descriptors
(stage 1, Technical Manager, pending) and (stage 2, Project Manager,
pending) — regardless of any prior approval state. -/
theorem C3_draft_to_pending_initializes_template
    (env : Env) (db : DB) (rid : String) (now : Nat) (r : Report)
    (hr : db.getReport rid = some r) (hdraft : r.status = "DRAFT") :
    ∃ o : UpdateOutcome,
      update_report_status env db rid "PENDING" now = some o ∧ o.returned = true ∧
      (o.finalDb.getReport rid).map (fun x => x.approvals_json) = some (some (.wellFormed
        (.vdict [("stage", .vint 1),
                 ("approvers", .vlist
                   [.vdict [("stage", .vint 1), ("title", .vstr "Technical Manager"),
                            ("status", .vstr "pending")],
                    .vdict [("stage", .vint 2), ("title", .vstr "Project Manager"),
                            ("status", .vstr "pending")]])]))) := by
  obtain ⟨o, ho, hret, hfc, hdi, hdr, hfin⟩ :=
    update_report_status_spec env db rid "PENDING" now r hr
  refine ⟨o, ho, hret, ?_⟩
  rw [hfin]
  simp [statusRow_aj, hdraft, approvalsTemplate]

/-- Claim C3 witness: a concrete DRAFT report submitted to PENDING. -/
theorem C3_witness :
    ∃ o : UpdateOutcome,
      update_report_status noFailEnv draftOnlyDb "r1" "PENDING" 5 = some o ∧ o.returned = true ∧
      (o.finalDb.getReport "r1").map (fun x => x.approvals_json) = some (some (.wellFormed
        (.vdict [("stage", .vint 1),
                 ("approvers", .vlist
                   [.vdict [("stage", .vint 1), ("title", .vstr "Technical Manager"),
                            ("status", .vstr "pending")],
                    .vdict [("stage", .vint 2), ("title", .vstr "Project Manager"),
                            ("status", .vstr "pending")]])]))) :=
  C3_draft_to_pending_initializes_template noFailEnv draftOnlyDb "r1" 5 draftDemo rfl rfl

/-! ### Claim C10 -/

/-- Claim C10: `update_report_status` performs no validation of the
requested transition: for every existing report in any current status
and every status string (including strings outside the
DRAFT/PENDING/APPROVED enumeration), the call sets the report's status
to the given string, stamps `updated_at`, and returns true. -/
theorem C10_no_transition_validation
    (env : Env) (db : DB) (rid status : String) (now : Nat) (r : Report)
    (hr : db.getReport rid = some r) :
    ∃ o : UpdateOutcome,
      update_report_status env db rid status now = some o ∧ o.returned = true ∧
      (o.finalDb.getReport rid).map (fun x => (x.status, x.updated_at))
        = some (status, now) := by
  obtain ⟨o, ho, hret, hfc, hdi, hdr, hfin⟩ :=
    update_report_status_spec env db rid status now r hr
  refine ⟨o, ho, hret, ?_⟩
  rw [hfin]
  simp [statusRow_status, statusRow_updated_at]

/-- Claim C10 witness: a status string outside the enumeration is
accepted unchecked. -/
theorem C10_witness :
    ∃ o : UpdateOutcome,
      update_report_status noFailEnv draftOnlyDb "r1" "BANANA" 9 = some o ∧ o.returned = true ∧
      (o.finalDb.getReport "r1").map (fun x => (x.status, x.updated_at))
        = some ("BANANA", 9) :=
  C10_no_transition_validation noFailEnv draftOnlyDb "r1" "BANANA" 9 draftDemo rfl

/-! ### Claim C5 -/

/-- Claim C5: in `update_report_status` the status change is committed
before the Notification Dispatcher is invoked (the dispatcher runs on
exactly the first committed state, which already stores the new status
and timestamp), and a dispatcher failure does not roll back the
committed change: the final committed state still stores them. -/
theorem C5_commit_before_dispatch
    (env : Env) (db : DB) (rid status : String) (now : Nat) (r : Report)
    (hr : db.getReport rid = some r) :
    ∃ o : UpdateOutcome,
      update_report_status env db rid status now = some o ∧
      (o.firstCommit.getReport rid).map (fun x => (x.status, x.updated_at))
        = some (status, now) ∧
      (∀ d, o.dispatchInput = some d → d = o.firstCommit) ∧
      (o.finalDb.getReport rid).map (fun x => (x.status, x.updated_at))
        = some (status, now) := by
  obtain ⟨o, ho, hret, hfc, hdi, hdr, hfin⟩ :=
    update_report_status_spec env db rid status now r hr
  refine ⟨o, ho, ?_, ?_, ?_⟩
  · rw [hfc]
    simp [statusRow_status, statusRow_updated_at]
  · intro d hd
    rw [hdi] at hd
    by_cases hc : (status == "PENDING" && !r.approval_notification_sent) = true
    · rw [if_pos hc] at hd
      exact (Option.some.inj hd).symm
    · rw [if_neg hc] at hd
      exact absurd hd (Option.noConfusion)
  · rw [hfin]
    simp [statusRow_status, statusRow_updated_at]

/-- Claim C5 witness: concrete dispatcher failure (`tm@x` insert raises)
after a DRAFT→PENDING transition; the new status and timestamp survive. -/
theorem C5_witness :
    ∃ o : UpdateOutcome,
      update_report_status tmFailEnv tmDraftDb "r1" "PENDING" 5 = some o ∧
      o.dispatchResult = some false ∧
      (o.finalDb.getReport "r1").map (fun x => (x.status, x.updated_at))
        = some ("PENDING", 5) := by
  obtain ⟨o, ho, h1, h2, h3⟩ :=
    C5_commit_before_dispatch tmFailEnv tmDraftDb "r1" "PENDING" 5 draftDemo rfl
  have hdr : (update_report_status tmFailEnv tmDraftDb "r1" "PENDING" 5).map
      (fun x => x.dispatchResult) = some (some false) := rfl
  rw [ho] at hdr
  simp only [Option.map_some'] at hdr
  exact ⟨o, ho, Option.some.inj hdr, h3⟩

/-! ### Claim C6 -/

/-- Claim C6: when `update_report_status` transitions a report into
PENDING and the dispatch fails (`create_approval_notification` returns
false without raising), the `approval_notification_sent` flag is
nevertheless set to true and committed, so no later call into PENDING
will re-attempt notification for that report. -/
theorem C6_flag_set_even_on_dispatch_failure
    (env : Env) (db : DB) (rid : String) (now : Nat) (r : Report) (o : UpdateOutcome)
    (hr : db.getReport rid = some r)
    (ho : update_report_status env db rid "PENDING" now = some o)
    (_hfail : o.dispatchResult = some false) :
    (o.finalDb.getReport rid).map (fun x => x.approval_notification_sent) = some true ∧
    (∀ (env2 : Env) (now2 : Nat) (o2 : UpdateOutcome),
      update_report_status env2 o.finalDb rid "PENDING" now2 = some o2 →
      o2.dispatchInput = none ∧ o2.dispatchResult = none) := by
  obtain ⟨o', ho', hret, hfc, hdi, hdr, hfin⟩ :=
    update_report_status_spec env db rid "PENDING" now r hr
  rw [ho] at ho'
  cases Option.some.inj ho'
  constructor
  · rw [hfin]
    simp
  · intro env2 now2 o2 ho2
    obtain ⟨o2', ho2', hret2, hfc2, hdi2, hdr2, hfin2⟩ :=
      update_report_status_spec env2 o.finalDb rid "PENDING" now2 _ hfin
    rw [ho2] at ho2'
    cases Option.some.inj ho2'
    constructor
    · rw [hdi2]
      simp
    · have hnone : o2.dispatchResult.isSome = false := by
        rw [hdr2]
        simp
      cases hdres : o2.dispatchResult with
      | none => rfl
      | some b => rw [hdres] at hnone; simp at hnone

/-- Claim C6 witness: with the `tm@x` insert failing the dispatcher
returns false, yet the flag is committed true and a later PENDING call
does not invoke the dispatcher. -/
theorem C6_witness :
    ∃ o : UpdateOutcome,
      update_report_status tmFailEnv tmDraftDb "r1" "PENDING" 5 = some o ∧
      o.dispatchResult = some false ∧
      (o.finalDb.getReport "r1").map (fun x => x.approval_notification_sent) = some true :=
  ⟨_, rfl, rfl,
    (C6_flag_set_even_on_dispatch_failure tmFailEnv tmDraftDb "r1" 5 draftDemo _ rfl rfl
      rfl).1⟩

/-! ### Claim C2 -/

/-- Claim C2 counterexample: a reachable run in which a report leaves
PENDING for APPROVED and keeps `approval_notification_sent = true`: the
flag is not reset by the transition, violating the claimed invariant
that it is true only while the status is PENDING. -/
theorem C2_counterexample :
    ((update_report_status noFailEnv draftOnlyDb "r1" "PENDING" 5).bind (fun o1 =>
      (update_report_status noFailEnv o1.finalDb "r1" "APPROVED" 6).map (fun o2 =>
        (o2.finalDb.getReport "r1").map
          (fun x => (x.status, x.approval_notification_sent)))))
      = some (some ("APPROVED", true)) := by rfl

/-- Claim C2 amended: `update_report_status` never resets
`approval_notification_sent`; after any successful call the stored flag
is the old flag ORed with entry-into-PENDING, so a report leaving
PENDING keeps the flag set and a non-PENDING report can hold the flag. -/
theorem C2_amended_flag_never_reset
    (env : Env) (db : DB) (rid status : String) (now : Nat) (r : Report)
    (hr : db.getReport rid = some r) :
    ∃ o : UpdateOutcome,
      update_report_status env db rid status now = some o ∧
      (o.finalDb.getReport rid).map (fun x => x.approval_notification_sent)
        = some (r.approval_notification_sent || status == "PENDING") := by
  obtain ⟨o, ho, hret, hfc, hdi, hdr, hfin⟩ :=
    update_report_status_spec env db rid status now r hr
  refine ⟨o, ho, ?_⟩
  rw [hfin]
  rfl

/-- Claim C2 amended witness. -/
theorem C2_amended_witness :
    ∃ o : UpdateOutcome,
      update_report_status noFailEnv draftOnlyDb "r1" "PENDING" 5 = some o ∧
      (o.finalDb.getReport "r1").map (fun x => x.approval_notification_sent)
        = some (draftDemo.approval_notification_sent || "PENDING" == "PENDING") :=
  C2_amended_flag_never_reset noFailEnv draftOnlyDb "r1" "PENDING" 5 draftDemo rfl

/-! ### Claim C7 -/

/-- Claim C7: for every report whose serialized approval state is absent
or not parseable as JSON, and for every role and stage, the
stage-membership check returns false without raising, so
`get_pending_approvals` counts that report as pending for no role and
itself never raises (all functions here are total). -/
theorem C7_malformed_state_fails_closed
    (aj : Option JsonText) (hmal : aj = none ∨ aj = some .malformed) :
    (∀ stage : Int, is_at_stage aj stage = false) ∧
    (∀ (role : String) (r : Report) (rest : List Report), r.approvals_json = aj →
      get_pending_approvals role (r :: rest) = get_pending_approvals role rest) := by
  have hstage : ∀ stage : Int, is_at_stage aj stage = false := by
    rcases hmal with h | h <;> rw [h] <;> intro stage <;> rfl
  refine ⟨hstage, ?_⟩
  intro role r rest hr
  have h1 : is_at_stage r.approvals_json 1 = false := by rw [hr]; exact hstage 1
  have h2 : is_at_stage r.approvals_json 2 = false := by rw [hr]; exact hstage 2
  unfold get_pending_approvals
  by_cases htm : (role == "TM" || role == "Technical Manager") = true
  · rw [if_pos htm, if_pos htm]
    by_cases hp : (r.status == "PENDING") = true
    · simp [List.filter_cons, hp, List.countP_cons, h1]
    · simp [List.filter_cons, hp]
  · rw [if_neg htm, if_neg htm]
    by_cases hpm : (role == "PM" || role == "Project Manager") = true
    · rw [if_pos hpm, if_pos hpm]
      by_cases hp : (r.status == "PENDING") = true
      · simp [List.filter_cons, hp, List.countP_cons, h2]
      · simp [List.filter_cons, hp]
    · rw [if_neg hpm, if_neg hpm]

/-- Claim C7 witness: a concrete unparseable blob is at no stage and
does not contribute to the TM pending count. -/
theorem C7_witness :
    is_at_stage (some JsonText.malformed) 1 = false ∧
    get_pending_approvals "TM" [malformedReport] = 0 := by
  have h := C7_malformed_state_fails_closed (some .malformed) (Or.inr rfl)
  refine ⟨h.1 1, ?_⟩
  rw [h.2 "TM" malformedReport [] rfl]
  rfl

/-! ### Claim C4 -/

/-- Claim C4 counterexample: `create_report` called with every field
(including `document_title`) absent does not fail: it returns a DRAFT
report whose `document_title` is None, and the report IS committed to
the store — no `ValidationError` is raised. -/
theorem C4_counterexample :
    ((create_report emptyData "eng@x" "rid-1" emptyDb).1.document_title = none) ∧
    ((create_report emptyData "eng@x" "rid-1" emptyDb).1.status = "DRAFT") ∧
    ((create_report emptyData "eng@x" "rid-1" emptyDb).2.reports
      = [(create_report emptyData "eng@x" "rid-1" emptyDb).1]) :=
  ⟨rfl, rfl, rfl⟩

/-- Claim C4 amended: `create_report` performs no required-field
validation: with `document_title` absent it still creates and commits a
DRAFT report whose `document_title` is None; no `ValidationError` path
exists. -/
theorem C4_amended_no_validation
    (data : ReportData) (user_email report_id : String) (db : DB)
    (h : data.document_title = none) :
    ((create_report data user_email report_id db).1.document_title = none) ∧
    ((create_report data user_email report_id db).1.status = "DRAFT") ∧
    ((create_report data user_email report_id db).2.reports
      = db.reports ++ [(create_report data user_email report_id db).1]) := by
  refine ⟨h, rfl, ?_⟩
  unfold create_report
  by_cases ht : ((data.type.getD "SAT") == "SAT") = true
  · simp [ht]
  · simp [ht]

/-- Claim C4 amended witness. -/
theorem C4_amended_witness :
    ((create_report emptyData "e2@x" "rid-2" emptyDb).1.document_title = none) ∧
    ((create_report emptyData "e2@x" "rid-2" emptyDb).1.status = "DRAFT") ∧
    ((create_report emptyData "e2@x" "rid-2" emptyDb).2.reports
      = emptyDb.reports ++ [(create_report emptyData "e2@x" "rid-2" emptyDb).1]) :=
  C4_amended_no_validation emptyData "e2@x" "rid-2" emptyDb rfl

/-! ### Claim C9 -/

/-- The replacement row is present after replacing the first match. -/
lemma mem_replaceNotifRow (p : Notification → Bool) (nr : Notification) :
    ∀ (l : List Notification) (n : Notification), l.find? p = some n →
      nr ∈ replaceNotifRow p nr l
  | [], _, h => by simp [List.find?] at h
  | x :: xs, n, h => by
    by_cases hx : p x = true
    · simp [replaceNotifRow, hx]
    · have hx' : p x = false := by simpa using hx
      have hh : xs.find? p = some n := by simpa [List.find?_cons, hx'] using h
      have := mem_replaceNotifRow p nr xs n hh
      simp [replaceNotifRow, hx']
      right
      exact this

/-- Claim C9: `mark_as_read` returns true — marking the notification
read and stamping `read_at` — exactly when a notification with that id
exists whose recipient equals the requesting email; in every other case
it returns false and the store is left unchanged. -/
theorem C9_mark_as_read_authorization
    (db : DB) (nid : Nat) (email : String) (now : Nat) :
    ((mark_as_read db nid email now).1 = true ↔
      ∃ n ∈ db.notifications, n.id = nid ∧ n.user_email = email) ∧
    ((∃ n ∈ db.notifications, n.id = nid ∧ n.user_email = email) →
      ∃ n ∈ db.notifications, n.id = nid ∧ n.user_email = email ∧
        { n with read := true, read_at := some now }
          ∈ (mark_as_read db nid email now).2.notifications) ∧
    ((mark_as_read db nid email now).1 = false →
      (mark_as_read db nid email now).2 = db) := by
  unfold mark_as_read
  cases hf : db.notifications.find? (fun n => n.id == nid && n.user_email == email) with
  | some n =>
    have hp := List.find?_some hf
    have hmem := List.mem_of_find?_eq_some hf
    have hid : n.id = nid := by
      have := (Bool.and_eq_true _ _).mp hp
      exact eq_of_beq this.1
    have hemail : n.user_email = email := by
      have := (Bool.and_eq_true _ _).mp hp
      exact eq_of_beq this.2
    refine ⟨?_, ?_, ?_⟩
    · simp only [hf]
      exact ⟨fun _ => ⟨n, hmem, hid, hemail⟩, fun _ => trivial⟩
    · intro _
      refine ⟨n, hmem, hid, hemail, ?_⟩
      simp only [hf]
      exact mem_replaceNotifRow _ _ db.notifications n hf
    · intro hfalse
      simp only [hf] at hfalse
      cases hfalse
  | none =>
    have hnone := List.find?_eq_none.mp hf
    refine ⟨?_, ?_, ?_⟩
    · simp only [hf]
      constructor
      · intro hh
        cases hh
      · rintro ⟨n, hmem, hid, hemail⟩
        exact absurd (by simp [hid, hemail]) (hnone n hmem)
    · rintro ⟨n, hmem, hid, hemail⟩
      exact absurd (by simp [hid, hemail]) (hnone n hmem)
    · intro _
      simp only [hf]

/-- Claim C9 witness: the owner's request succeeds; a mismatched email
fails and leaves the store unchanged. -/
theorem C9_witness :
    (mark_as_read notifDb 7 "me@x" 3).1 = true ∧
    (mark_as_read notifDb 7 "other@x" 3).1 = false ∧
    (mark_as_read notifDb 7 "other@x" 3).2 = notifDb := by
  have h1 := C9_mark_as_read_authorization notifDb 7 "me@x" 3
  have h2 := C9_mark_as_read_authorization notifDb 7 "other@x" 3
  refine ⟨h1.1.mpr ⟨demoNotif, by simp [notifDb], rfl, rfl⟩, ?_, ?_⟩
  · rfl
  · exact h2.2.2 rfl

/-! ### Claim C8 -/

/-- Rows staged before the bulk loop survive it. -/
lemma bulkLoop_session_mono (env : Env) (t m ty : String) :
    ∀ (emails : List String) (session : List Notification) (sent failed nid : Nat)
      (n : Notification), n ∈ session →
      n ∈ (bulkLoop env t m ty emails session sent failed nid).1
  | [], _, _, _, _, _, hn => hn
  | email :: rest, session, sent, failed, nid, n, hn => by
    by_cases hf : env.notifFails email = true
    · simp only [bulkLoop, hf, if_true]
      exact bulkLoop_session_mono env t m ty rest session sent (failed + 1) nid n hn
    · have hf' : env.notifFails email = false := by simpa using hf
      simp only [bulkLoop, hf', Bool.false_eq_true, if_false]
      exact bulkLoop_session_mono env t m ty rest _ (sent + 1) failed (nid + 1) n
        (List.mem_append_left _ hn)

/-- Every non-failing recipient gets a staged row carrying the batch's
title, message and type. -/
lemma bulkLoop_mem (env : Env) (t m ty : String) :
    ∀ (emails : List String) (session : List Notification) (sent failed nid : Nat)
      (e : String), e ∈ emails → env.notifFails e = false →
      ∃ n ∈ (bulkLoop env t m ty emails session sent failed nid).1,
        n.user_email = e ∧ n.title = t ∧ n.message = m ∧ n.type = ty
  | [], _, _, _, _, _, he, _ => absurd he (List.not_mem_nil _)
  | email :: rest, session, sent, failed, nid, e, he, hok => by
    rcases List.mem_cons.mp he with heq | htail
    · subst heq
      simp only [bulkLoop, hok, Bool.false_eq_true, if_false]
      refine ⟨{ id := nid, user_email := e, title := t, message := m,
                type := ty, read := false, read_at := none }, ?_, rfl, rfl, rfl, rfl⟩
      exact bulkLoop_session_mono env t m ty rest _ (sent + 1) failed (nid + 1) _
        (List.mem_append_right _ (List.mem_singleton.mpr rfl))
    · by_cases hf : env.notifFails email = true
      · simp only [bulkLoop, hf, if_true]
        exact bulkLoop_mem env t m ty rest session sent (failed + 1) nid e htail hok
      · have hf' : env.notifFails email = false := by simpa using hf
        simp only [bulkLoop, hf', Bool.false_eq_true, if_false]
        exact bulkLoop_mem env t m ty rest _ (sent + 1) failed (nid + 1) e htail hok

/-- The bulk loop's tallies: sent counts the non-failing recipients,
failed the failing ones. -/
lemma bulkLoop_counts (env : Env) (t m ty : String) :
    ∀ (emails : List String) (session : List Notification) (sent failed nid : Nat),
      (bulkLoop env t m ty emails session sent failed nid).2.1
        = sent + emails.countP (fun e => !env.notifFails e) ∧
      (bulkLoop env t m ty emails session sent failed nid).2.2.1
        = failed + emails.countP (fun e => env.notifFails e)
  | [], _, sent, failed, _ => by simp [bulkLoop]
  | email :: rest, session, sent, failed, nid => by
    by_cases hf : env.notifFails email = true
    · have h := bulkLoop_counts env t m ty rest session sent (failed + 1) nid
      simp only [bulkLoop, hf, if_true]
      refine ⟨?_, ?_⟩
      · rw [h.1, List.countP_cons]
        simp [hf]
      · rw [h.2, List.countP_cons]
        simp [hf]
        omega
    · have hf' : env.notifFails email = false := by simpa using hf
      have h := bulkLoop_counts env t m ty rest (session ++
        [{ id := nid, user_email := email, title := t, message := m,
           type := ty, read := false, read_at := none }]) (sent + 1) failed (nid + 1)
      simp only [bulkLoop, hf', Bool.false_eq_true, if_false]
      refine ⟨?_, ?_⟩
      · rw [h.1, List.countP_cons]
        simp [hf']
        omega
      · rw [h.2, List.countP_cons]
        simp [hf']

/-- Claim C8: the bulk-notification job on recipients [a, b, c] where
creating the record for exactly b fails: the failure is caught without
aborting the batch, the terminal result reports sent=2, failed=1,
total=3, and the notifications for a and c are committed to storage. -/
theorem C8_bulk_partial_failure
    (env : Env) (db : DB) (a b c title message ntype : String)
    (ha : env.notifFails a = false) (hb : env.notifFails b = true)
    (hc : env.notifFails c = false) :
    ((bulk_notification_async env db [a, b, c] title message ntype).1
      = { sent := 2, failed := 1, total := 3 }) ∧
    (∃ n ∈ (bulk_notification_async env db [a, b, c] title message ntype).2.notifications,
      n.user_email = a ∧ n.title = title ∧ n.message = message) ∧
    (∃ n ∈ (bulk_notification_async env db [a, b, c] title message ntype).2.notifications,
      n.user_email = c ∧ n.title = title ∧ n.message = message) := by
  have hcounts := bulkLoop_counts env title message ntype [a, b, c] [] 0 0 db.nextNotifId
  have hmema := bulkLoop_mem env title message ntype [a, b, c] [] 0 0 db.nextNotifId a
    (by simp) ha
  have hmemc := bulkLoop_mem env title message ntype [a, b, c] [] 0 0 db.nextNotifId c
    (by simp) hc
  refine ⟨?_, ?_, ?_⟩
  · unfold bulk_notification_async
    have h1 := hcounts.1
    have h2 := hcounts.2
    rw [List.countP_cons, List.countP_cons, List.countP_cons, List.countP_nil] at h1 h2
    simp [ha, hb, hc] at h1 h2
    simp only []
    rw [BulkResult.mk.injEq]
    exact ⟨h1, h2, rfl⟩
  · obtain ⟨n, hn, hprops⟩ := hmema
    exact ⟨n, by
      unfold bulk_notification_async
      simp only []
      exact List.mem_append_right _ hn, hprops.1, hprops.2.1, hprops.2.2.1⟩
  · obtain ⟨n, hn, hprops⟩ := hmemc
    exact ⟨n, by
      unfold bulk_notification_async
      simp only []
      exact List.mem_append_right _ hn, hprops.1, hprops.2.1, hprops.2.2.1⟩

/-- Claim C8 witness: the concrete batch [a@x, b@x, c@x] with exactly
the b@x insert failing. -/
theorem C8_witness :
    ((bulk_notification_async bFailEnv emptyDb ["a@x", "b@x", "c@x"] "T" "M" "info").1
      = { sent := 2, failed := 1, total := 3 }) ∧
    (∃ n ∈ (bulk_notification_async bFailEnv emptyDb ["a@x", "b@x", "c@x"]
        "T" "M" "info").2.notifications,
      n.user_email = "a@x" ∧ n.title = "T" ∧ n.message = "M") ∧
    (∃ n ∈ (bulk_notification_async bFailEnv emptyDb ["a@x", "b@x", "c@x"]
        "T" "M" "info").2.notifications,
      n.user_email = "c@x" ∧ n.title = "T" ∧ n.message = "M") :=
  C8_bulk_partial_failure bFailEnv emptyDb "a@x" "b@x" "c@x" "T" "M" "info" rfl rfl rfl

/-! ### Claim C1 -/

/-- One classification step changes the TM bucket by exactly the user's
TM-bucket contribution. -/
lemma classifyUser_tm (acc : UsersByRole) (u : User) :
    (classifyUser acc u).tm = acc.tm ++ (tmBucket u).toList := by
  unfold classifyUser tmBucket
  by_cases h1 : (u.role == "Admin") = true
  · simp [h1]
  · by_cases h2 : (u.role == "Engineer") = true
    · simp [h1, h2]
    · by_cases h3 : u.role = "TM" ∨ u.role = "Technical Manager" ∨
          u.role = "Tech Manager" ∨ u.role = "Automation Manager"
      · simp [h1, h2, h3]
      · by_cases h4 : u.role = "PM" ∨ u.role = "Project Manager" ∨
            u.role = "Project_Manager"
        · simp [h1, h2, h3, h4]
        · simp [h1, h2, h3, h4]

/-- The TM bucket of the classification fold collects exactly the
TM-bucket contributions, in order. -/
lemma foldl_classify_tm :
    ∀ (l : List User) (acc : UsersByRole),
      (l.foldl classifyUser acc).tm = acc.tm ++ l.filterMap tmBucket
  | [], acc => by simp
  | u :: rest, acc => by
    rw [List.foldl_cons, foldl_classify_tm rest (classifyUser acc u), classifyUser_tm]
    cases hb : tmBucket u with
    | none => simp [List.filterMap_cons, hb]
    | some v => simp [List.filterMap_cons, hb]

/-- The shape of a successfully inserted notification row. -/
lemma create_notification_shape (env : Env) (db : DB) (e t m ty : String)
    (n : Notification) (db' : DB)
    (h : create_notification env db e t m ty = some (n, db')) :
    db'.notifications = db.notifications ++ [n] ∧ n.user_email = e := by
  unfold create_notification at h
  by_cases hf : env.notifFails e = true
  · simp [hf] at h
  · simp [hf] at h
    obtain ⟨h1, h2⟩ := h
    rw [← h2, ← h1]
    exact ⟨rfl, rfl⟩

/-- Every notification present after the dispatcher loop was either
already stored or addressed to one of the looped-over managers. -/
lemma notifyTMs_mem (env : Env) (msg : String) :
    ∀ (tms : List User) (db : DB) (n : Notification),
      n ∈ (match notifyTMs env msg db tms with
           | .ok d => d
           | .error d => d).notifications →
      n ∈ db.notifications ∨ ∃ u ∈ tms, n.user_email = u.email
  | [], db, n, hn => by
    simp only [notifyTMs] at hn
    exact Or.inl hn
  | tm :: rest, db, n, hn => by
    rw [notifyTMs] at hn
    cases hc : create_notification env db tm.email "New Report for Approval" msg "approval" with
    | none =>
      rw [hc] at hn
      simp only at hn
      exact Or.inl hn
    | some p =>
      rw [hc] at hn
      simp only at hn
      obtain ⟨hnotifs, hemail⟩ := create_notification_shape env db tm.email
        "New Report for Approval" msg "approval" p.1 p.2 (by rw [hc])
      rcases notifyTMs_mem env msg rest p.2 n hn with hin | ⟨u, hu, he⟩
      · rw [hnotifs] at hin
        rcases List.mem_append.mp hin with hold | hnew
        · exact Or.inl hold
        · refine Or.inr ⟨tm, List.mem_cons_self _ _, ?_⟩
          rw [List.mem_singleton.mp hnew]
          exact hemail
      · exact Or.inr ⟨u, List.mem_cons_of_mem _ hu, he⟩

/-- The committed store returned by the dispatcher is the store produced
by the notification loop, whether or not the loop aborted. -/
lemma create_approval_notification_db (env : Env) (db : DB) (rep : Report) :
    (create_approval_notification env db rep).2.1 =
      (match notifyTMs env
          ("Report \"" ++ (rep.document_title.getD "None") ++ "\" requires your approval") db
          (db.users.filter
            (fun u => (u.role == "TM" || u.role == "Technical Manager")
              && u.status == "Active")) with
       | .ok d => d
       | .error d => d) := by
  cases hn : notifyTMs env
      ("Report \"" ++ (rep.document_title.getD "None") ++ "\" requires your approval") db
      (db.users.filter
        (fun u => (u.role == "TM" || u.role == "Technical Manager")
          && u.status == "Active")) with
  | error d => simp [create_approval_notification, hn]
  | ok d => simp [create_approval_notification, hn]

/-- Claim C1 counterexample: with a PENDING report at stage 1 and an
Active user whose stored role string is `Automation Manager`,
`get_pending_approvals "Automation Manager"` returns 0 (not the stage-1
count, which is 1 as the role `TM` sees), and
`create_approval_notification` creates no notification for that user
(the store is returned unchanged). -/
theorem C1_counterexample :
    pendingStage1Report.status = "PENDING" ∧
    is_at_stage pendingStage1Report.approvals_json 1 = true ∧
    get_pending_approvals "Automation Manager" [pendingStage1Report] = 0 ∧
    get_pending_approvals "TM" [pendingStage1Report] = 1 ∧
    create_approval_notification noFailEnv amOnlyDb pendingStage1Report
      = (true, amOnlyDb, []) :=
  ⟨rfl, rfl, rfl, rfl, rfl⟩

/-- Claim C1 amended: the `Automation Manager` synonym is honoured only
by `get_users_by_role` (the user lands in the TM bucket); the
stage-counting and dispatch paths recognise only `TM` and
`Technical Manager`: `get_pending_approvals` called with role
`Automation Manager` returns 0 for every report list, and every
notification created by `create_approval_notification` is addressed to
an Active user whose stored role is exactly `TM` or
`Technical Manager`. -/
theorem C1_amended_role_synonym_scope
    (users : List User) (u : User) (hu : u ∈ users)
    (hrole : u.role = "Automation Manager") (hstatus : u.status = "Active") :
    ((u.full_name, u.email) ∈ (get_users_by_role users).tm) ∧
    (∀ reports : List Report, get_pending_approvals "Automation Manager" reports = 0) ∧
    (∀ (env : Env) (db : DB) (rep : Report) (n : Notification),
      n ∈ ((create_approval_notification env db rep).2.1).notifications →
      n ∈ db.notifications ∨
        ∃ v ∈ db.users, (v.role = "TM" ∨ v.role = "Technical Manager") ∧
          v.status = "Active" ∧ n.user_email = v.email) := by
  refine ⟨?_, ?_, ?_⟩
  · unfold get_users_by_role
    rw [foldl_classify_tm]
    have hfu : u ∈ users.filter (fun v => v.status == "Active") :=
      List.mem_filter.mpr ⟨hu, by simp [hstatus]⟩
    have hbu : tmBucket u = some (u.full_name, u.email) := by
      unfold tmBucket
      rw [hrole]
      rfl
    exact List.mem_append_right _ (List.mem_filterMap.mpr ⟨u, hfu, hbu⟩)
  · intro reports
    rfl
  · intro env db rep n hn
    rw [create_approval_notification_db] at hn
    rcases notifyTMs_mem env _ _ db n hn with hold | ⟨v, hv, he⟩
    · exact Or.inl hold
    · have hvf := List.mem_filter.mp hv
      have hvp := hvf.2
      simp only [Bool.and_eq_true, Bool.or_eq_true, beq_iff_eq] at hvp
      exact Or.inr ⟨v, hvf.1, hvp.1, hvp.2, he⟩

/-- Claim C1 amended witness: the Automation Manager user is grouped in
the TM bucket, yet the pending count for that role string is 0. -/
theorem C1_amended_witness :
    ((amDemoUser.full_name, amDemoUser.email) ∈ (get_users_by_role [amDemoUser]).tm) ∧
    get_pending_approvals "Automation Manager" [pendingStage1Report] = 0 := by
  have h := C1_amended_role_synonym_scope [amDemoUser] amDemoUser
    (List.mem_singleton.mpr rfl) rfl rfl
  exact ⟨h.1, h.2.1 [pendingStage1Report]⟩

end Dash
